import Mathlib

/-!
Verification development for the SalesCoach backend's transcript analysis and
persistence pipeline.  The definitions below are a shallow embedding of the
TypeScript sources:

* `src/utils/analyser.ts` — the normalizer/classifier (`determineObjectionType`,
  `formatTimestamp`, `calculateQuestionsPerMinute`, `getObjectionColorClass`,
  `calculateDefaultTalkRatio`, and the post-processing section of
  `analyzeCallTranscript`);
* `src/routes/assets.ts` — the upload route (`retryWithBackoff`, the
  `prisma.$transaction` write, the asset status state machine).

JavaScript strings are embedded as `List Char`, JavaScript numbers as exact
rationals (`ℚ`, built with `mkRat` so that the kernel can evaluate them), and
fallible operations as explicit outcome parameters.  `Option` models
`undefined` for optional fields, and `none` models `NaN` where a numeric
computation can produce it.
-/

/- Core rational operations are irreducible by default; the model needs the
kernel to evaluate them on concrete inputs. -/
attribute [local semireducible] Rat.add Rat.mul Rat.sub Rat.inv

/-! ## Basic JavaScript string primitives -/

/-- `String.prototype.toLowerCase()` restricted to the ASCII range used by the
keyword tables of `determineObjectionType`. -/
def jsToLower (s : List Char) : List Char := s.map Char.toLower

/-- `String.prototype.includes(pat)`: `pat` occurs as a contiguous substring of
`s`. -/
def jsIncludes (s pat : List Char) : Bool := decide (pat <:+: s)

/-- The characters matched by the JavaScript `\s` class that occur in this
code base's inputs (space, tab, newline, carriage return). -/
def isJsWhitespace (c : Char) : Bool := c == ' ' || c == '\t' || c == '\n' || c == '\r'

/-- `String.prototype.trim()`. -/
def jsTrim (s : List Char) : List Char :=
  ((s.dropWhile isJsWhitespace).reverse.dropWhile isJsWhitespace).reverse

/-- Decimal digit characters, the JavaScript `\d` class. -/
def isDigitChar (c : Char) : Bool := c.isDigit

/-- Value of a list of decimal digit characters (most significant first). -/
def digitsToNat (s : List Char) : Nat :=
  s.foldl (fun acc c => acc * 10 + (c.toNat - '0'.toNat)) 0

/-- Decimal rendering of a natural number, as `Number.prototype.toString()`
produces for a nonnegative integer. -/
def natToChars (n : Nat) : List Char := Nat.toDigits 10 n

/-- Decimal rendering of an integer (`Number.prototype.toString()` for an
integral value). -/
def intToChars : Int → List Char
  | .ofNat n => natToChars n
  | .negSucc n => '-' :: natToChars (n + 1)

/-- `String.prototype.padStart(2, "0")`. -/
def padStart2 (s : List Char) : List Char :=
  if s.length < 2 then List.replicate (2 - s.length) '0' ++ s else s

/-- `String.prototype.split(sep)` for a single-character separator; splitting
the empty string yields `[""]`, as in JavaScript. -/
def splitOnChar (sep : Char) : List Char → List (List Char)
  | [] => [[]]
  | c :: rest =>
    match splitOnChar sep rest with
    | [] => [[c]]
    | h :: t => if c == sep then [] :: h :: t else (c :: h) :: t

/-! ## Objection categories (`ObjectionTypeEnum`, analyser.ts lines 11-21) -/

/-- The closed enumeration of objection categories. -/
inductive ObjectionType
  | PRICE
  | TIMING
  | TRUST_RISK
  | COMPETITION
  | STAKEHOLDERS
  | TECHNICAL
  | IMPLEMENTATION
  | VALUE
  | OTHERS
deriving DecidableEq

/-- `determineObjectionType` (analyser.ts lines 550-700): the keyword if/else
chain, evaluated top to bottom on the lowercased objection text; the first
group whose keyword occurs wins, `OTHERS` is the fallback. -/
def determineObjectionType (text : List Char) : ObjectionType :=
  let lowerText := jsToLower text
  if jsIncludes lowerText "price".toList || jsIncludes lowerText "cost".toList ||
      jsIncludes lowerText "expensive".toList || jsIncludes lowerText "budget".toList ||
      jsIncludes lowerText "afford".toList || jsIncludes lowerText "money".toList ||
      jsIncludes lowerText "discount".toList || jsIncludes lowerText "cheaper".toList ||
      jsIncludes lowerText "roi".toList || jsIncludes lowerText "return on investment".toList ||
      jsIncludes lowerText "value for money".toList || jsIncludes lowerText "spend".toList then
    .PRICE
  else if jsIncludes lowerText "time".toList || jsIncludes lowerText "schedule".toList ||
      jsIncludes lowerText "deadline".toList || jsIncludes lowerText "when".toList ||
      jsIncludes lowerText "timeline".toList || jsIncludes lowerText "too soon".toList ||
      jsIncludes lowerText "too early".toList || jsIncludes lowerText "next quarter".toList ||
      jsIncludes lowerText "next year".toList || jsIncludes lowerText "not ready".toList ||
      jsIncludes lowerText "wait".toList || jsIncludes lowerText "later".toList ||
      jsIncludes lowerText "months from now".toList || jsIncludes lowerText "busy right now".toList then
    .TIMING
  else if jsIncludes lowerText "risk".toList || jsIncludes lowerText "trust".toList ||
      jsIncludes lowerText "uncertain".toList || jsIncludes lowerText "proof".toList ||
      jsIncludes lowerText "guarantee".toList || jsIncludes lowerText "case study".toList ||
      jsIncludes lowerText "reference".toList || jsIncludes lowerText "testimonial".toList ||
      jsIncludes lowerText "security".toList || jsIncludes lowerText "compliance".toList ||
      jsIncludes lowerText "track record".toList || jsIncludes lowerText "reputation".toList ||
      jsIncludes lowerText "prove".toList || jsIncludes lowerText "never heard of".toList then
    .TRUST_RISK
  else if jsIncludes lowerText "competitor".toList || jsIncludes lowerText "alternative".toList ||
      jsIncludes lowerText "other vendor".toList || jsIncludes lowerText "already using".toList ||
      jsIncludes lowerText "already have".toList || jsIncludes lowerText "compared to".toList ||
      jsIncludes lowerText "difference between".toList ||
      jsIncludes lowerText "how are you different".toList ||
      jsIncludes lowerText "better than".toList || jsIncludes lowerText "working with".toList ||
      jsIncludes lowerText "solution from".toList then
    .COMPETITION
  else if jsIncludes lowerText "team".toList || jsIncludes lowerText "boss".toList ||
      jsIncludes lowerText "manager".toList || jsIncludes lowerText "approval".toList ||
      jsIncludes lowerText "committee".toList || jsIncludes lowerText "board".toList ||
      jsIncludes lowerText "decision maker".toList || jsIncludes lowerText "consult with".toList ||
      jsIncludes lowerText "convince".toList || jsIncludes lowerText "other people".toList ||
      jsIncludes lowerText "team members".toList || jsIncludes lowerText "director".toList ||
      jsIncludes lowerText "procurement".toList || jsIncludes lowerText "colleagues".toList then
    .STAKEHOLDERS
  else if jsIncludes lowerText "feature".toList || jsIncludes lowerText "technical".toList ||
      jsIncludes lowerText "limitation".toList || jsIncludes lowerText "capability".toList ||
      jsIncludes lowerText "compatible".toList || jsIncludes lowerText "integration".toList ||
      jsIncludes lowerText "api".toList || jsIncludes lowerText "functionality".toList ||
      jsIncludes lowerText "support for".toList || jsIncludes lowerText "does it work with".toList ||
      jsIncludes lowerText "can it do".toList || jsIncludes lowerText "specs".toList ||
      jsIncludes lowerText "technical requirements".toList then
    .TECHNICAL
  else if jsIncludes lowerText "implement".toList || jsIncludes lowerText "deploy".toList ||
      jsIncludes lowerText "setup".toList || jsIncludes lowerText "installation".toList ||
      jsIncludes lowerText "migration".toList || jsIncludes lowerText "training".toList ||
      jsIncludes lowerText "onboarding".toList || jsIncludes lowerText "configuration".toList ||
      jsIncludes lowerText "resources".toList || jsIncludes lowerText "difficult to".toList ||
      jsIncludes lowerText "complicated".toList || jsIncludes lowerText "time consuming".toList ||
      jsIncludes lowerText "learning curve".toList then
    .IMPLEMENTATION
  else if jsIncludes lowerText "benefit".toList || jsIncludes lowerText "value".toList ||
      jsIncludes lowerText "worth it".toList || jsIncludes lowerText "advantage".toList ||
      jsIncludes lowerText "outcome".toList || jsIncludes lowerText "result".toList ||
      jsIncludes lowerText "impact".toList || jsIncludes lowerText "difference".toList ||
      jsIncludes lowerText "solve our problem".toList || jsIncludes lowerText "helps us how".toList ||
      jsIncludes lowerText "why should we".toList || jsIncludes lowerText "what\x27s in it for".toList then
    .VALUE
  else
    .OTHERS

/-- The same classifier written the way the specification describes it: an
ordered table of (category, keyword list) pairs; the first category one of
whose keywords occurs in the lowercased text wins. -/
def objectionRules : List (ObjectionType × List (List Char)) :=
  [ (.PRICE, ["price".toList, "cost".toList, "expensive".toList, "budget".toList,
      "afford".toList, "money".toList, "discount".toList, "cheaper".toList, "roi".toList,
      "return on investment".toList, "value for money".toList, "spend".toList]),
    (.TIMING, ["time".toList, "schedule".toList, "deadline".toList, "when".toList,
      "timeline".toList, "too soon".toList, "too early".toList, "next quarter".toList,
      "next year".toList, "not ready".toList, "wait".toList, "later".toList,
      "months from now".toList, "busy right now".toList]),
    (.TRUST_RISK, ["risk".toList, "trust".toList, "uncertain".toList, "proof".toList,
      "guarantee".toList, "case study".toList, "reference".toList, "testimonial".toList,
      "security".toList, "compliance".toList, "track record".toList, "reputation".toList,
      "prove".toList, "never heard of".toList]),
    (.COMPETITION, ["competitor".toList, "alternative".toList, "other vendor".toList,
      "already using".toList, "already have".toList, "compared to".toList,
      "difference between".toList, "how are you different".toList, "better than".toList,
      "working with".toList, "solution from".toList]),
    (.STAKEHOLDERS, ["team".toList, "boss".toList, "manager".toList, "approval".toList,
      "committee".toList, "board".toList, "decision maker".toList, "consult with".toList,
      "convince".toList, "other people".toList, "team members".toList, "director".toList,
      "procurement".toList, "colleagues".toList]),
    (.TECHNICAL, ["feature".toList, "technical".toList, "limitation".toList,
      "capability".toList, "compatible".toList, "integration".toList, "api".toList,
      "functionality".toList, "support for".toList, "does it work with".toList,
      "can it do".toList, "specs".toList, "technical requirements".toList]),
    (.IMPLEMENTATION, ["implement".toList, "deploy".toList, "setup".toList,
      "installation".toList, "migration".toList, "training".toList, "onboarding".toList,
      "configuration".toList, "resources".toList, "difficult to".toList,
      "complicated".toList, "time consuming".toList, "learning curve".toList]),
    (.VALUE, ["benefit".toList, "value".toList, "worth it".toList, "advantage".toList,
      "outcome".toList, "result".toList, "impact".toList, "difference".toList,
      "solve our problem".toList, "helps us how".toList, "why should we".toList,
      "what\x27s in it for".toList]) ]

/-- First-match evaluation of an ordered rule table over a lowercased text,
with `OTHERS` as the fallback. -/
def evalRules : List (ObjectionType × List (List Char)) → List Char → ObjectionType
  | [], _ => .OTHERS
  | (c, kws) :: rest, lowerText =>
    if kws.any (fun k => jsIncludes lowerText k) then c else evalRules rest lowerText

/-- Table-driven classifier following the specification's wording. -/
def classifyByRules (text : List Char) : ObjectionType :=
  evalRules objectionRules (jsToLower text)

/-- **C5.** The category-inference function agrees, on every input, with the
first-match evaluation of the keyword rules in the fixed priority order
PRICE → TIMING → TRUST_RISK → COMPETITION → STAKEHOLDERS → TECHNICAL →
IMPLEMENTATION → VALUE with OTHERS as fallback; consequently it is total
(being a Lean function into the closed enumeration) and deterministic:
re-running it on the same text yields the same category. -/
theorem determineObjectionType_eq_rules :
    (∀ text : List Char, determineObjectionType text = classifyByRules text) ∧
    (∀ text : List Char, determineObjectionType text = determineObjectionType text) := by
  refine ⟨fun text => ?_, fun _ => rfl⟩
  simp only [determineObjectionType, classifyByRules, objectionRules, evalRules,
    List.any_cons, List.any_nil, Bool.or_false, Bool.or_assoc]

/-! ## Presentation tags (`getObjectionColorClass`, analyser.ts lines 782-805) -/

/-- Fixed category → CSS color class lookup used for UI display. -/
def getObjectionColorClass : ObjectionType → String
  | .PRICE => "bg-red-100 text-red-600"
  | .TIMING => "bg-orange-100 text-orange-600"
  | .TRUST_RISK => "bg-blue-100 text-blue-600"
  | .COMPETITION => "bg-purple-100 text-purple-600"
  | .STAKEHOLDERS => "bg-green-100 text-green-600"
  | .TECHNICAL => "bg-indigo-100 text-indigo-600"
  | .IMPLEMENTATION => "bg-yellow-100 text-yellow-600"
  | .VALUE => "bg-teal-100 text-teal-600"
  | .OTHERS => "bg-gray-100 text-gray-600"

/-! ## Timestamp normalization (`formatTimestamp`, analyser.ts lines 705-733) -/

/-- The anchored test `/^\d{1,2}:\d{2}$/`: one or two digits, a colon, exactly
two digits. -/
def isMMSS (s : List Char) : Bool :=
  match s with
  | [a, b, c, d] => isDigitChar a && b == ':' && isDigitChar c && isDigitChar d
  | [a, b, c, d, e] => isDigitChar a && isDigitChar b && c == ':' && isDigitChar d && isDigitChar e
  | _ => false

/-- Exact value of a JavaScript number written as a decimal literal:
`num / 10 ^ k`. -/
structure JsNum where
  num : Int
  k : Nat
deriving DecidableEq

/-- `parseFloat`: skip leading whitespace, an optional sign, then the longest
decimal literal prefix (integer digits, optionally a dot and fraction digits);
`none` models `NaN`.  The exponent and `Infinity` forms of the full JavaScript
grammar never occur in this code base's timestamps and are not modelled. -/
def jsParseFloat (s : List Char) : Option JsNum :=
  let s1 := s.dropWhile isJsWhitespace
  let signAndRest : Bool × List Char :=
    match s1 with
    | '-' :: rest => (true, rest)
    | '+' :: rest => (false, rest)
    | _ => (false, s1)
  let ip := signAndRest.2.takeWhile isDigitChar
  let s3 := signAndRest.2.drop ip.length
  let fp : List Char :=
    match s3 with
    | '.' :: rest => rest.takeWhile isDigitChar
    | _ => []
  if ip.isEmpty && fp.isEmpty then none
  else
    let mag : Nat := digitsToNat (ip ++ fp)
    some ⟨if signAndRest.1 then -(mag : Int) else (mag : Int), fp.length⟩

/-- Maximal runs of decimal digits occurring in a string, in order: a digit
either starts a new run (when not preceded by a digit) or extends the run of
the digit that follows it. -/
def digitRuns : List Char → List (List Char)
  | [] => []
  | c :: rest =>
    let rs := digitRuns rest
    if isDigitChar c then
      match rest, rs with
      | d :: _, r :: rs2 => if isDigitChar d then (c :: r) :: rs2 else [c] :: r :: rs2
      | _, _ => [c] :: rs
    else rs

/-- The first match of `/(\d+)[^\d]+(\d+)/`: its two capture groups are the
first two maximal digit runs of the string (the mandatory `[^\d]+` gap between
them is exactly the non-digit text separating consecutive maximal runs). -/
def matchDigitPair (s : List Char) : Option (List Char × List Char) :=
  match digitRuns s with
  | r1 :: r2 :: _ => some (r1, r2)
  | _ => none

/-- `formatTimestamp` (analyser.ts lines 705-733).  A timestamp already in
`M:SS` form is returned unchanged; otherwise, if `parseFloat` yields a number
of seconds, it is rendered as `${Math.floor(s/60)}:${pad(Math.floor(s%60))}`
(JavaScript `%` truncates toward zero, `Math.floor` rounds down); otherwise,
if the string holds two digit runs, they are rendered as a minute/second pair;
otherwise the input passes through unchanged.  The function is total: the
`try/catch` of the source never fires in this pure model. -/
def formatTimestamp (timestamp : List Char) : List Char :=
  if isMMSS timestamp then timestamp
  else
    match jsParseFloat timestamp with
    | some v =>
      let d : Int := (60 * 10 ^ v.k : Nat)
      let mins : Int := Int.fdiv v.num d
      let secs : Int := Int.fdiv (v.num - d * Int.tdiv v.num d) ((10 ^ v.k : Nat))
      intToChars mins ++ ':' :: padStart2 (intToChars secs)
    | none =>
      match matchDigitPair timestamp with
      | some (m, sec) => m ++ ':' :: padStart2 sec
      | none => timestamp

/-- **C7.** The timestamp-normalization function is total (it is a Lean
function) and never throws; an input already in `M:SS` form is returned
unchanged; the numeric-seconds input `"90"` becomes `"1:30"`; a loosely
formatted string is converted via extraction of its first minute/second digit
pair (`"about 2:5 in"` becomes `"2:05"`); and the unparsable input `"abc"` is
returned unchanged. -/
theorem formatTimestamp_spec :
    (∀ ts : List Char, isMMSS ts = true → formatTimestamp ts = ts) ∧
    formatTimestamp "90".toList = "1:30".toList ∧
    formatTimestamp "about 2:5 in".toList = "2:05".toList ∧
    formatTimestamp "abc".toList = "abc".toList := by
  refine ⟨fun ts h => ?_, by decide, by decide, by decide⟩
  simp [formatTimestamp, h]

/-- Witness for `formatTimestamp_spec`: the concrete `M:SS` input `"2:05"` is
returned unchanged. -/
theorem formatTimestamp_spec_witness :
    isMMSS "2:05".toList = true ∧ formatTimestamp "2:05".toList = "2:05".toList :=
  ⟨by decide, formatTimestamp_spec.1 "2:05".toList (by decide)⟩

/-! ## Questions per minute (`calculateQuestionsPerMinute`, analyser.ts lines 738-758) -/

/-- `Number(s)` conversion for the colon-separated duration parts: whitespace
is trimmed, the empty string converts to `0`, a decimal literal converts to
its exact value, anything else is `NaN` (`none`).  The hexadecimal and
exponent forms of the full JavaScript grammar never occur in durations and are
not modelled. -/
def jsNumber (s : List Char) : Option ℚ :=
  let t := jsTrim s
  if t.isEmpty then some (mkRat 0 1)
  else
    let signAndRest : Bool × List Char :=
      match t with
      | '-' :: rest => (true, rest)
      | '+' :: rest => (false, rest)
      | _ => (false, t)
    let ip := signAndRest.2.takeWhile isDigitChar
    let s3 := signAndRest.2.drop ip.length
    let fpAndRest : List Char × List Char :=
      match s3 with
      | '.' :: rest => (rest.takeWhile isDigitChar, rest.dropWhile isDigitChar)
      | _ => ([], s3)
    if (ip.isEmpty && fpAndRest.1.isEmpty) || !fpAndRest.2.isEmpty then none
    else
      let mag : Nat := digitsToNat (ip ++ fpAndRest.1)
      some (mkRat (if signAndRest.1 then -(mag : Int) else (mag : Int)) (10 ^ fpAndRest.1.length))

/-- The `totalMinutes` computed by `calculateQuestionsPerMinute`: for an
`MM:SS` split, `parts[0] + parts[1]/60`; for `HH:MM:SS`,
`parts[0]*60 + parts[1] + parts[2]/60`; any other número of parts leaves the
initial `0`.  `none` models a `NaN` part propagating through the arithmetic. -/
def parsedTotalMinutes (duration : List Char) : Option ℚ :=
  match (splitOnChar ':' duration).map jsNumber with
  | [some a, some b] => some (a + b / mkRat 60 1)
  | [_, _] => none
  | [some a, some b, some c] => some (a * mkRat 60 1 + b + c / mkRat 60 1)
  | [_, _, _] => none
  | _ => some (mkRat 0 1)

/-- `calculateQuestionsPerMinute` (analyser.ts lines 738-758): divide
`totalQuestions` by the duration parsed into minutes, guarding the
division-by-zero case by returning `0`; a `NaN` duration part makes the
result `NaN` (`none`), since `NaN === 0` is false in JavaScript. -/
def calculateQuestionsPerMinute (totalQuestions : ℚ) (duration : List Char) : Option ℚ :=
  match parsedTotalMinutes duration with
  | none => none
  | some totalMinutes =>
    if totalMinutes = mkRat 0 1 then some (mkRat 0 1)
    else some (totalQuestions / totalMinutes)

/-- **C8.** The questions-per-minute derivation divides `totalQuestions` by
the duration parsed into minutes from an `MM:SS` or `HH:MM:SS` string,
returns `0` when the parsed duration is zero, and on `totalQuestions = 12`
with duration `"04:00"` yields exactly `3`. -/
theorem calculateQuestionsPerMinute_spec :
    calculateQuestionsPerMinute (mkRat 12 1) "04:00".toList = some (mkRat 3 1) ∧
    (∀ (tq : ℚ) (d : List Char), parsedTotalMinutes d = some (mkRat 0 1) →
      calculateQuestionsPerMinute tq d = some (mkRat 0 1)) ∧
    (∀ (tq m : ℚ) (d : List Char), parsedTotalMinutes d = some m → m ≠ mkRat 0 1 →
      calculateQuestionsPerMinute tq d = some (tq / m)) := by
  refine ⟨by decide, fun tq d h => ?_, fun tq m d h hm => ?_⟩
  · simp [calculateQuestionsPerMinute, h]
  · simp only [calculateQuestionsPerMinute, h]
    rw [if_neg hm]

/-- Witness for `calculateQuestionsPerMinute_spec`: the zero-duration guard
fires on the concrete duration `"0:00"`. -/
theorem calculateQuestionsPerMinute_spec_witness :
    parsedTotalMinutes "0:00".toList = some (mkRat 0 1) ∧
    calculateQuestionsPerMinute (mkRat 7 1) "0:00".toList = some (mkRat 0 1) :=
  ⟨by decide, calculateQuestionsPerMinute_spec.2.1 (mkRat 7 1) "0:00".toList (by decide)⟩

/-! ## Retry with exponential backoff (`retryWithBackoff`, assets.ts lines 35-52) -/

/-- Observable trace of one `retryWithBackoff` run: how many times the wrapped
operation was invoked, the sleeps performed between attempts (in
milliseconds, in order), and whether the run ended in success (`ok = true`)
or by rethrowing the final error (`ok = false`). -/
structure RetryTrace where
  attempts : Nat
  delays : List Nat
  ok : Bool
deriving DecidableEq

/-- The `while (true)` loop of `retryWithBackoff`, entered with `retries = n`
failures already recorded and `gas = maxRetries - n` retries still allowed.
Attempt `n` invokes `fn`; on failure `retries` becomes `n + 1`, the error is
rethrown once `retries > maxRetries` (that is, once `gas` is exhausted), and
otherwise the loop sleeps `initialDelay * 2 ^ (retries - 1)` ms and retries.
`outcome n` tells whether the `n`-th invocation (0-indexed) succeeds. -/
def retryAux (outcome : Nat → Bool) (initialDelay : Nat) : Nat → Nat → RetryTrace
  | n, gas =>
    if outcome n then ⟨n + 1, [], true⟩
    else
      match gas with
      | 0 => ⟨n + 1, [], false⟩
      | g + 1 =>
        let r := retryAux outcome initialDelay (n + 1) g
        ⟨r.attempts, initialDelay * 2 ^ n :: r.delays, r.ok⟩

/-- `retryWithBackoff` (assets.ts lines 35-52) with its default parameters
`maxRetries = 3`, `initialDelay = 1000`. -/
def retryWithBackoff (outcome : Nat → Bool) (maxRetries : Nat := 3)
    (initialDelay : Nat := 1000) : RetryTrace :=
  retryAux outcome initialDelay 0 maxRetries

/-- Helper for the always-failing case: entering the loop at attempt `n` with
`gas` retries left, an always-failing operation is attempted `gas + 1` more
times and the trace ends in failure. -/
theorem retryAux_allFail (outcome : Nat → Bool) (h : ∀ m, outcome m = false)
    (initialDelay : Nat) :
    ∀ (gas n : Nat), (retryAux outcome initialDelay n gas).attempts = n + gas + 1 ∧
      (retryAux outcome initialDelay n gas).ok = false := by
  intro gas
  induction gas with
  | zero =>
    intro n
    rw [retryAux, h n]
    simp
  | succ g ih =>
    intro n
    rw [retryAux, h n]
    simp only [Bool.false_eq_true, if_false]
    refine ⟨?_, (ih (n + 1)).2⟩
    show (retryAux outcome initialDelay (n + 1) g).attempts = n + (g + 1) + 1
    rw [(ih (n + 1)).1]
    omega

/-- **C3.** The retry combinator wrapping the transactional write: an
operation that fails twice and then succeeds is attempted exactly 3 times,
with the sleeps before the retries doubling from the base delay (1000 ms then
2000 ms at the defaults); an operation that always fails is attempted exactly
`maxRetries + 1` times before the final error propagates. -/
theorem retryWithBackoff_spec :
    (∀ outcome : Nat → Bool, outcome 0 = false → outcome 1 = false → outcome 2 = true →
      retryWithBackoff outcome = ⟨3, [1000, 2000], true⟩) ∧
    (∀ (outcome : Nat → Bool) (maxRetries initialDelay : Nat), (∀ m, outcome m = false) →
      (retryWithBackoff outcome maxRetries initialDelay).attempts = maxRetries + 1 ∧
      (retryWithBackoff outcome maxRetries initialDelay).ok = false) := by
  constructor
  · intro outcome h0 h1 h2
    simp [retryWithBackoff, retryAux, h0, h1, h2]
  · intro outcome maxRetries initialDelay h
    have hall := retryAux_allFail outcome h initialDelay maxRetries 0
    rw [retryWithBackoff]
    refine ⟨?_, hall.2⟩
    rw [hall.1]
    omega

/-- Witness for `retryWithBackoff_spec`: the operation succeeding first at its
third invocation produces the trace ⟨3, [1000, 2000], true⟩, and the
always-failing operation at the default `maxRetries = 3` performs 4 attempts
and fails. -/
theorem retryWithBackoff_spec_witness :
    retryWithBackoff (fun n => decide (2 ≤ n)) = ⟨3, [1000, 2000], true⟩ ∧
    (retryWithBackoff (fun _ => false) 3 1000).attempts = 3 + 1 ∧
    (retryWithBackoff (fun _ => false) 3 1000).ok = false :=
  ⟨retryWithBackoff_spec.1 (fun n => decide (2 ≤ n)) (by decide) (by decide) (by decide),
   retryWithBackoff_spec.2 (fun _ => false) 3 1000 (fun _ => rfl)⟩

/-! ## Fallback talk ratio (`calculateDefaultTalkRatio`, analyser.ts lines 1149-1270) -/

/-- `text.split(/\s+/).filter(w => w.length > 0).length`: the number of
maximal non-whitespace runs, counted at the last character of each run. -/
def countWords : List Char → Nat
  | [] => 0
  | c :: rest =>
    if isJsWhitespace c then countWords rest
    else
      match rest with
      | [] => 1
      | d :: _ => if isJsWhitespace d then 1 + countWords rest else countWords rest

/-- The transcript split into lines. -/
def splitLines (t : List Char) : List (List Char) := splitOnChar '\n' t

/-- The per-line speaker match `/([^:]+):\s*(.*)/`: the leftmost match takes
the speaker name (trimmed) from before the first colon that has at least one
non-colon character in front of it, and the utterance text from after the
colon with leading whitespace stripped; a line without such a colon does not
match.  This is the source's second-phase extraction; its first-phase
transcript-wide regex agrees with it on line-structured transcripts. -/
def parseUtterance (line : List Char) : Option (List Char × List Char) :=
  let l := line.dropWhile (fun c => c == ':')
  let sp := l.takeWhile (fun c => c != ':')
  match l.drop sp.length with
  | ':' :: rest => some (jsTrim sp, rest.dropWhile isJsWhitespace)
  | _ => none

/-- The (speaker, word count) pairs produced by scanning the transcript. -/
def utterancesOf (transcript : List Char) : List (List Char × Nat) :=
  (splitLines transcript).filterMap (fun line =>
    (parseUtterance line).map (fun u => (u.1, countWords u.2)))

/-- One step of `speakerWordCounts.set(speaker, current + wordCount)` on the
insertion-ordered `Map`. -/
def addWordCount (acc : List (List Char × Nat)) (sp : List Char) (wc : Nat) :
    List (List Char × Nat) :=
  match acc with
  | [] => [(sp, wc)]
  | (s, c) :: rest => if s = sp then (s, c + wc) :: rest else (s, c) :: addWordCount rest sp wc

/-- The `speakerWordCounts` map after scanning the whole transcript, as an
insertion-ordered association list. -/
def speakerWordCounts (transcript : List Char) : List (List Char × Nat) :=
  (utterancesOf transcript).foldl (fun acc u => addWordCount acc u.1 u.2) []

/-- The `totalWordCount` accumulator: every matched utterance's word count is
added to it. -/
def totalWords (transcript : List Char) : Nat :=
  ((utterancesOf transcript).map (fun u => u.2)).sum

/-- The sales-rep name heuristic: the second participant's name up to an
opening parenthesis, trimmed (or the raw participant if the name match
fails); the empty string when fewer than two participants exist. -/
def salesRepNameOf (participants : List (List Char)) : List Char :=
  if participants.length ≥ 2 then
    let p := participants.getD 1 []
    let nm := p.takeWhile (fun c => c != '(')
    if nm.isEmpty then p else jsTrim nm
  else []

/-- A `ParticipantTalkStat` value emitted by the fallback computation. -/
structure ParticipantTalkStatRec where
  id : List Char
  name : List Char
  role : List Char
  wordCount : Nat
  percentage : ℚ
deriving DecidableEq

/-- Result of `calculateDefaultTalkRatio`. -/
structure TalkRatioFallback where
  salesRepPercentage : ℚ
  participantStats : List ParticipantTalkStatRec
deriving DecidableEq

/-- `calculateDefaultTalkRatio` (analyser.ts lines 1149-1270): default
`{50, []}` for an empty transcript or participant list or when no speaker
words are found; otherwise one stat per speaker with
`percentage = wordCount / totalWordCount * 100`, role assigned by matching
the lowercased speaker against the lowercased sales-rep name, and
`salesRepPercentage` the percentage of the last matching speaker (0 when none
matches). -/
def calculateDefaultTalkRatio (transcript : List Char) (participants : List (List Char)) :
    TalkRatioFallback :=
  if transcript.isEmpty || participants.isEmpty then ⟨mkRat 50 1, []⟩
  else
    let counts := speakerWordCounts transcript
    let total := totalWords transcript
    if total = 0 then ⟨mkRat 50 1, []⟩
    else
      let repLower := jsToLower (salesRepNameOf participants)
      ⟨counts.foldl (fun acc u =>
          if jsIncludes (jsToLower u.1) repLower then (u.2 : ℚ) / (total : ℚ) * 100 else acc) 0,
        counts.enum.map (fun e =>
          { id := "speaker-".toList ++ natToChars (e.1 + 1)
            name := e.2.1
            role := if jsIncludes (jsToLower e.2.1) repLower then "Sales Rep".toList
              else "Prospect".toList
            wordCount := e.2.2
            percentage := (e.2.2 : ℚ) / (total : ℚ) * 100 })⟩

/-- The word counts recorded in the speaker map sum to exactly the
`totalWordCount` accumulator. -/
theorem speakerWordCounts_sum (transcript : List Char) :
    ((speakerWordCounts transcript).map (fun u => u.2)).sum = totalWords transcript := by
  have hadd : ∀ (acc : List (List Char × Nat)) (sp : List Char) (wc : Nat),
      ((addWordCount acc sp wc).map (fun u => u.2)).sum =
        (acc.map (fun u => u.2)).sum + wc := by
    intro acc sp wc
    induction acc with
    | nil => simp [addWordCount]
    | cons hd tl ih =>
      by_cases hsp : hd.1 = sp
      · simp [addWordCount, hsp]
        omega
      · simp [addWordCount, hsp, ih]
        omega
  have hfold : ∀ (utts : List (List Char × Nat)) (acc : List (List Char × Nat)),
      ((utts.foldl (fun acc u => addWordCount acc u.1 u.2) acc).map (fun u => u.2)).sum =
        (acc.map (fun u => u.2)).sum + (utts.map (fun u => u.2)).sum := by
    intro utts
    induction utts with
    | nil => simp
    | cons hd tl ih =>
      intro acc
      simp only [List.foldl_cons, List.map_cons, List.sum_cons, ih, hadd]
      omega
  simpa [speakerWordCounts, totalWords] using hfold (utterancesOf transcript) []

/-- Summation helper: percentages of the form `wc / t * 100` over a list of
(speaker, count) pairs add up to the total count over `t`, times 100. -/
theorem sum_map_percentage (l : List (List Char × Nat)) (t : ℚ) :
    (l.map (fun p => ((p.2 : ℚ) / t * 100))).sum =
      ((((l.map (fun p => p.2)).sum : ℕ)) : ℚ) / t * 100 := by
  induction l with
  | nil => simp
  | cons hd tl ih =>
    simp only [List.map_cons, List.sum_cons, ih]
    push_cast
    ring

/-- **C9 (talk-stat percentage invariant of the fallback computation).** For
every transcript and non-empty participant list on which the fallback
talk-ratio computation finds a positive total word count, the percentages of
the `ParticipantTalkStat` records it emits sum to exactly 100. -/
theorem calculateDefaultTalkRatio_percentage_sum (transcript : List Char)
    (participants : List (List Char)) (hp : participants ≠ [])
    (hw : totalWords transcript ≠ 0) :
    (((calculateDefaultTalkRatio transcript participants).participantStats).map
      (fun s => s.percentage)).sum = 100 := by
  have ht : transcript ≠ [] := by
    intro he
    subst he
    exact hw rfl
  have hte : transcript.isEmpty = false := by simpa using ht
  have hpe : participants.isEmpty = false := by simpa using hp
  rw [calculateDefaultTalkRatio]
  simp only [hte, hpe, Bool.or_self, Bool.false_eq_true, if_false, if_neg hw]
  rw [List.map_map]
  have key : ((speakerWordCounts transcript).enum.map
      ((fun p : List Char × Nat => ((p.2 : ℚ) / (totalWords transcript : ℚ) * 100)) ∘
        Prod.snd)).sum = 100 := by
    rw [← List.map_map, List.enum_map_snd, sum_map_percentage, speakerWordCounts_sum,
      div_self (by exact_mod_cast hw)]
    ring
  exact key

/-- Witness for `calculateDefaultTalkRatio_percentage_sum`: a concrete
two-speaker transcript with three words in total. -/
theorem calculateDefaultTalkRatio_percentage_sum_witness :
    (["Alice (Prospect)".toList, "Bob (Sales Rep)".toList] ≠ ([] : List (List Char))) ∧
    totalWords "Alice: hello world\nBob: hi".toList ≠ 0 ∧
    (((calculateDefaultTalkRatio "Alice: hello world\nBob: hi".toList
        ["Alice (Prospect)".toList, "Bob (Sales Rep)".toList]).participantStats).map
      (fun s => s.percentage)).sum = 100 :=
  ⟨by decide, by decide,
    calculateDefaultTalkRatio_percentage_sum _ _ (by decide) (by decide)⟩

/-! ## The normalizer's objection post-processing (analyser.ts lines 984-1019) -/

/-- An objection as returned by the external classification service.  The Zod
schema marks `text`, `time`, `response`, `effectiveness` required;
`responseTime`, `technique`, `color` and `transcript` optional.  `id`, `type`
and `success` are required by the schema, yet the normalizer re-checks each
with a runtime guard, so they are modelled as optional here (`Option` is the
superset of the schema's type). -/
structure RawObjection where
  id : Option (List Char)
  text : List Char
  time : List Char
  response : List Char
  responseTime : Option (List Char)
  effectiveness : ℚ
  otype : Option ObjectionType
  success : Option Bool
  technique : Option (List Char)
  transcriptRef : Option (List Char)
deriving DecidableEq

/-- JavaScript `v || d` for an optional string: an absent or empty (falsy)
string is replaced by the default. -/
def jsOrElseStr (v : Option (List Char)) (d : List Char) : List Char :=
  match v with
  | some s => if s.isEmpty then d else s
  | none => d

/-- An objection after the normalizer's post-processing. -/
structure ProcessedObjection where
  id : List Char
  text : List Char
  time : List Char
  response : List Char
  responseTime : List Char
  effectiveness : ℚ
  otype : ObjectionType
  success : Bool
  color : String
  transcriptRef : List Char
  technique : List Char
deriving DecidableEq

/-- One step of `processedObjections` (analyser.ts lines 984-1019): backfill a
missing id as `obj-<index+1>`, a missing category from the objection text, a
missing success flag as `effectiveness > 0.7` (an explicitly supplied boolean
— even `false` — is kept, per the `typeof` guard); attach the category's
color class; normalize the timestamps; default `transcript` to `"main"` and
`technique` to the empty string. -/
def processObjection (index : Nat) (objection : RawObjection) : ProcessedObjection :=
  let ty : ObjectionType :=
    match objection.otype with
    | some t => t
    | none => determineObjectionType objection.text
  let time := formatTimestamp objection.time
  { id := jsOrElseStr objection.id ("obj-".toList ++ natToChars (index + 1))
    text := objection.text
    time := time
    response := objection.response
    responseTime :=
      match objection.responseTime with
      | some rt => if rt.isEmpty then time else formatTimestamp rt
      | none => time
    effectiveness := objection.effectiveness
    otype := ty
    success :=
      match objection.success with
      | some b => b
      | none => decide (objection.effectiveness > mkRat 7 10)
    color := getObjectionColorClass ty
    transcriptRef := jsOrElseStr objection.transcriptRef "main".toList
    technique := jsOrElseStr objection.technique [] }

/-! ## The remaining normalization steps (analyser.ts lines 1021-1077) -/

/-- The question-category counts of the schema's `QuestionAnalysis`. -/
structure QuestionCategories where
  discovery : ℚ
  qualifying : ℚ
  closing : ℚ
  clarifying : ℚ
deriving DecidableEq

/-- `questionsAnalysis` as returned by the external service. -/
structure QuestionsAnalysisData where
  totalQuestions : ℚ
  questionsPerMinute : ℚ
  salesRepQuestions : ℚ
  categories : QuestionCategories
  effectivenessScore : ℚ
deriving DecidableEq

/-- `questionsAnalysis` after normalization; `questionsPerMinute` becomes
`Option ℚ` because the recomputation can produce `NaN` (`none`). -/
structure NormalizedQuestionsAnalysis where
  totalQuestions : ℚ
  questionsPerMinute : Option ℚ
  salesRepQuestions : ℚ
  categories : QuestionCategories
  effectivenessScore : ℚ
deriving DecidableEq

/-- The `questionsAnalysis` step of the normalizer (analyser.ts lines
1068-1076): `questionsPerMinute || calculateQuestionsPerMinute(...)` — the
falsy value `0` (like an absent one) triggers the recomputation from
`totalQuestions` and the call duration. -/
def normalizeQuestionsAnalysis (qa : QuestionsAnalysisData) (duration : List Char) :
    NormalizedQuestionsAnalysis :=
  { totalQuestions := qa.totalQuestions
    questionsPerMinute :=
      if qa.questionsPerMinute = mkRat 0 1 then
        calculateQuestionsPerMinute qa.totalQuestions duration
      else some qa.questionsPerMinute
    salesRepQuestions := qa.salesRepQuestions
    categories := qa.categories
    effectivenessScore := qa.effectivenessScore }

/-- A participant stat as returned by the external service. -/
structure RawTalkStat where
  id : Option (List Char)
  name : List Char
  role : List Char
  wordCount : ℚ
  percentage : ℚ
deriving DecidableEq

/-- The service's `talkRatio` object. -/
structure TalkRatioData where
  salesRepPercentage : ℚ
  participantStats : List RawTalkStat
  idealRatio : Option Bool
deriving DecidableEq

/-- The `talkRatio` step of the normalizer (analyser.ts lines 1059-1065):
keep the object and default `idealRatio` to `salesRepPercentage < 60` (this
one uses an `!== undefined` check, so an explicit `false` is kept). -/
def normalizeTalkRatio (tr : TalkRatioData) : TalkRatioData :=
  { tr with
    idealRatio := some (match tr.idealRatio with
      | some b => b
      | none => decide (tr.salesRepPercentage < mkRat 60 1)) }

/-- The fields of the service's structured analysis that feed the persisted
records.  Fields that the pipeline copies verbatim into the database without
examining them (title, date, participants, summary, key insights,
recommendations) are omitted.  The Zod schema makes `talkRatio` required, but
the route reads it with the optional-chaining guard
`data.talkRatio?.salesRepPercentage`, so it is modelled as optional. -/
structure RawAnalysis where
  duration : List Char
  sentimentOverall : ℚ
  sentimentTimeline : List (List Char × ℚ)
  talkRatio : Option TalkRatioData
  questionsAnalysis : QuestionsAnalysisData
  topicCoherenceScore : ℚ
  objections : List RawObjection
deriving DecidableEq

/-- The analysis after the normalizer's post-processing. -/
structure NormalizedAnalysis where
  duration : List Char
  sentimentOverall : ℚ
  sentimentTimeline : List (List Char × ℚ)
  talkRatio : Option TalkRatioData
  questionsAnalysis : NormalizedQuestionsAnalysis
  topicCoherenceScore : ℚ
  objections : List ProcessedObjection
deriving DecidableEq

/-- The post-processing section of `analyzeCallTranscript` (analyser.ts lines
980-1077): process every objection (with its 0-based index), normalize the
talk ratio and the questions analysis, and pass the sentiment data through. -/
def normalizeAnalysis (raw : RawAnalysis) : NormalizedAnalysis :=
  { duration := raw.duration
    sentimentOverall := raw.sentimentOverall
    sentimentTimeline := raw.sentimentTimeline
    talkRatio := raw.talkRatio.map normalizeTalkRatio
    questionsAnalysis := normalizeQuestionsAnalysis raw.questionsAnalysis raw.duration
    topicCoherenceScore := raw.topicCoherenceScore
    objections := raw.objections.enum.map (fun e => processObjection e.1 e.2) }

/-! ## The store and the transactional write (assets.ts lines 115-198) -/

/-- The `Status` enumeration of the Prisma schema; a `CallAsset` is created
with the default `PENDING`. -/
inductive AssetStatus
  | PENDING
  | SUCCESS
  | FAIL
deriving DecidableEq

/-- The `CallAssetType` enumeration of the Prisma schema. -/
inductive CallAssetType
  | FILE
  | TEXT
deriving DecidableEq

/-- An `Objection` row as written by `tx.objection.create` (assets.ts lines
167-179). -/
structure StoredObjection where
  text : List Char
  time : List Char
  response : List Char
  effectiveness : ℚ
  otype : ObjectionType
  success : Bool
deriving DecidableEq

/-- A `SentimentEntry` row. -/
structure StoredSentimentEntry where
  time : List Char
  score : ℚ
deriving DecidableEq

/-- A `ParticipantTalkStat` row. -/
structure StoredTalkStat where
  name : List Char
  role : List Char
  wordCount : ℚ
  percentage : ℚ
deriving DecidableEq

/-- An `Analysis` row together with its child rows, all created inside the
one transaction. -/
structure StoredAnalysis where
  callAssetId : Nat
  duration : List Char
  overallSentiment : ℚ
  salesRepTalkRatio : ℚ
  questionsRate : Option ℚ
  totalQuestions : ℚ
  topicCoherence : ℚ
  objections : List StoredObjection
  sentimentEntries : List StoredSentimentEntry
  participantTalkStats : List StoredTalkStat
deriving DecidableEq

/-- The backing store: asset ids with their statuses (in creation order),
analyses with their children, and the next fresh asset id. -/
structure Store where
  assets : List (Nat × AssetStatus)
  analyses : List StoredAnalysis
  nextId : Nat
deriving DecidableEq

/-- `prisma.callAsset.update({where: {id}, data: {status}})`: set the status
of the asset with the given id (no-op when the id does not exist, in which
case the real call throws — the one call site that can hit a missing id
swallows the error). -/
def setStatus (assets : List (Nat × AssetStatus)) (i : Nat) (s : AssetStatus) :
    List (Nat × AssetStatus) :=
  assets.map (fun p => if p.1 = i then (p.1, s) else p)

/-- The status of the asset with id `i`. -/
def statusOf (st : Store) (i : Nat) : Option AssetStatus :=
  (st.assets.find? (fun p => p.1 == i)).map (fun p => p.2)

/-- Whether an `Analysis` row linked to asset `i` exists. -/
def hasAnalysisFor (st : Store) (i : Nat) : Bool :=
  st.analyses.any (fun a => a.callAssetId == i)

/-- The `Analysis` row (with children) built by the body of the
`prisma.$transaction` (assets.ts lines 115-198):
`salesRepTalkRatio = data.talkRatio?.salesRepPercentage || 50` (so a missing
talk ratio — and the falsy percentage `0` — store as 50),
`questionsRate = data.questionsAnalysis.questionsPerMinute`, one
`SentimentEntry` per timeline point, the `ParticipantTalkStat` rows only when
`data.talkRatio?.participantStats` is non-empty, and one `Objection` row per
(processed) objection with `success = obj.effectiveness > 0.6` (assets.ts
line 175). -/
def mkAnalysisRecord (assetId : Nat) (data : NormalizedAnalysis) : StoredAnalysis :=
  { callAssetId := assetId
    duration := data.duration
    overallSentiment := data.sentimentOverall
    salesRepTalkRatio :=
      match data.talkRatio with
      | some tr => if tr.salesRepPercentage = mkRat 0 1 then mkRat 50 1 else tr.salesRepPercentage
      | none => mkRat 50 1
    questionsRate := data.questionsAnalysis.questionsPerMinute
    totalQuestions := data.questionsAnalysis.totalQuestions
    topicCoherence := data.topicCoherenceScore
    objections := data.objections.map (fun o =>
      { text := o.text
        time := o.time
        response := o.response
        effectiveness := o.effectiveness
        otype := o.otype
        success := decide (o.effectiveness > mkRat 6 10) })
    sentimentEntries := data.sentimentTimeline.map (fun p => { time := p.1, score := p.2 })
    participantTalkStats :=
      match data.talkRatio with
      | some tr =>
        if tr.participantStats.isEmpty then []
        else tr.participantStats.map (fun s =>
          { name := s.name, role := s.role, wordCount := s.wordCount, percentage := s.percentage })
      | none => [] }

/-- One committed run of the `prisma.$transaction` callback: atomically add
the analysis row with all its children and flip the asset status to
`SUCCESS`.  A failed transaction changes nothing (all-or-nothing rollback). -/
def applyTransaction (st : Store) (assetId : Nat) (data : NormalizedAnalysis) : Store :=
  { assets := setStatus st.assets assetId .SUCCESS
    analyses := st.analyses ++ [mkAnalysisRecord assetId data]
    nextId := st.nextId }

/-! ## The upload route (assets.ts lines 55-239) -/

/-- Environment of one upload request: the outcomes of its fallible external
operations.  `extractedText` is the PDF extraction result for a `FILE` asset
(`none` = both extraction paths threw); `classified` is the structured
analysis returned by the classification adapter (`none` = service error or
schema rejection — normalization errors propagate identically);
`txOutcome n` tells whether the `n`-th transaction attempt commits;
`markFailOk` tells whether the `catch (analysisError)` block's status update
to FAIL itself succeeds; `bodyFailOk` likewise for the outer catch's update
of `req.body.id`; `bodyId` is the optional client-supplied `id` field of the
request body (the validation schema strips unknown keys from the parsed
result but the outer catch reads the raw `req.body.id`). -/
structure PipelineEnv where
  extractedText : Option (List Char)
  classified : Option RawAnalysis
  txOutcome : Nat → Bool
  markFailOk : Bool
  bodyFailOk : Bool
  bodyId : Option Nat

/-- Outcome of the request: HTTP 201 with the created analysis, or HTTP 500
after an error. -/
inductive UploadOutcome
  | created
  | failed
deriving DecidableEq

/-- The error path of the upload route: the `catch (analysisError)` block
updates the created asset to `FAIL` (when that update itself does not throw)
and rethrows; the outer catch then additionally forces the asset named by
`req.body.id` — if the client supplied one — to `FAIL`, swallowing any error
of that second update, and answers 500. -/
def failPath (st : Store) (assetId : Nat) (env : PipelineEnv) : Store × UploadOutcome :=
  let st2 := if env.markFailOk then { st with assets := setStatus st.assets assetId .FAIL } else st
  let st3 :=
    match env.bodyId with
    | some j => if env.bodyFailOk then { st2 with assets := setStatus st2.assets j .FAIL } else st2
    | none => st2
  (st3, .failed)

/-- STEP 1 of the upload handler: create the asset row outside the
transaction, its status defaulting to `PENDING` per the Prisma schema. -/
def createAsset (st : Store) : Store :=
  { assets := st.assets ++ [(st.nextId, .PENDING)]
    analyses := st.analyses
    nextId := st.nextId + 1 }

/-- The upload handler (assets.ts lines 55-239): STEP 1 creates the asset
(`createAsset`); STEP 2 extracts the text (`TEXT` content passes through,
`FILE` content goes through the PDF extractor) and calls the classification
adapter, whose result is normalized; STEP 3 wraps the single atomic
transaction in `retryWithBackoff` at the default policy.  Any failure in
STEPs 2-3 takes the error path. -/
def runUpload (st : Store) (content : List Char) (ctype : CallAssetType) (env : PipelineEnv) :
    Store × UploadOutcome :=
  let assetId := st.nextId
  let st1 : Store := createAsset st
  let text : Option (List Char) :=
    match ctype with
    | .TEXT => some content
    | .FILE => env.extractedText
  match text with
  | none => failPath st1 assetId env
  | some _ =>
    match env.classified with
    | none => failPath st1 assetId env
    | some raw =>
      if (retryWithBackoff env.txOutcome).ok then
        (applyTransaction st1 assetId (normalizeAnalysis raw), .created)
      else failPath st1 assetId env

/-! ## Claim theorems on the normalizer and the transactional write -/

/-- **C10.** Presence of an optional numeric field is tested by truthiness:
an explicit `questionsPerMinute` of 0 is replaced by the recomputed rate, and
a `talkRatio.salesRepPercentage` of 0 — like a missing `talkRatio` — is
persisted as `salesRepTalkRatio = 50`. -/
theorem truthiness_zero_handling :
    (∀ (qa : QuestionsAnalysisData) (duration : List Char),
      qa.questionsPerMinute = mkRat 0 1 →
      (normalizeQuestionsAnalysis qa duration).questionsPerMinute =
        calculateQuestionsPerMinute qa.totalQuestions duration) ∧
    (∀ (assetId : Nat) (data : NormalizedAnalysis), data.talkRatio = none →
      (mkAnalysisRecord assetId data).salesRepTalkRatio = mkRat 50 1) ∧
    (∀ (assetId : Nat) (data : NormalizedAnalysis) (tr : TalkRatioData),
      data.talkRatio = some tr → tr.salesRepPercentage = mkRat 0 1 →
      (mkAnalysisRecord assetId data).salesRepTalkRatio = mkRat 50 1) := by
  refine ⟨fun qa d h => ?_, fun a data h => ?_, fun a data tr h h0 => ?_⟩
  · simp [normalizeQuestionsAnalysis, h]
  · simp [mkAnalysisRecord, h]
  · simp [mkAnalysisRecord, h, h0]

/-- Concrete questions analysis with an explicit rate of 0, for the C10
witness. -/
def zeroRateQA : QuestionsAnalysisData :=
  { totalQuestions := mkRat 12 1
    questionsPerMinute := mkRat 0 1
    salesRepQuestions := mkRat 8 1
    categories := ⟨mkRat 4 1, mkRat 3 1, mkRat 2 1, mkRat 3 1⟩
    effectivenessScore := mkRat 1 2 }

/-- Concrete normalized analysis with a talk ratio whose
`salesRepPercentage` is 0, for the C10 witness. -/
def zeroTalkRatioData : NormalizedAnalysis :=
  { duration := "04:00".toList
    sentimentOverall := mkRat 1 2
    sentimentTimeline := []
    talkRatio := some ⟨mkRat 0 1, [], some true⟩
    questionsAnalysis :=
      ⟨mkRat 12 1, some (mkRat 3 1), mkRat 8 1, ⟨mkRat 4 1, mkRat 3 1, mkRat 2 1, mkRat 3 1⟩,
        mkRat 1 2⟩
    topicCoherenceScore := mkRat 1 2
    objections := [] }

/-- Concrete normalized analysis without a talk ratio, for the C10 witness. -/
def noTalkRatioData : NormalizedAnalysis :=
  { zeroTalkRatioData with talkRatio := none }

/-- Witness for `truthiness_zero_handling`: a supplied rate of 0 is
recomputed (12 questions over "04:00" gives 3), and both a zero and a missing
sales-rep percentage persist as 50. -/
theorem truthiness_zero_handling_witness :
    zeroRateQA.questionsPerMinute = mkRat 0 1 ∧
    (normalizeQuestionsAnalysis zeroRateQA "04:00".toList).questionsPerMinute =
      calculateQuestionsPerMinute (mkRat 12 1) "04:00".toList ∧
    noTalkRatioData.talkRatio = none ∧
    (mkAnalysisRecord 0 noTalkRatioData).salesRepTalkRatio = mkRat 50 1 ∧
    zeroTalkRatioData.talkRatio = some ⟨mkRat 0 1, [], some true⟩ ∧
    (mkAnalysisRecord 0 zeroTalkRatioData).salesRepTalkRatio = mkRat 50 1 :=
  ⟨by decide, truthiness_zero_handling.1 zeroRateQA "04:00".toList (by decide),
    rfl, truthiness_zero_handling.2.1 0 noTalkRatioData rfl,
    rfl, truthiness_zero_handling.2.2 0 zeroTalkRatioData _ rfl (by decide)⟩

/-- **C2 (amended).** The normalizer backfills a missing success flag as
`effectiveness > 0.7`, but the transactional write recomputes every persisted
success flag as `effectiveness > 0.6`, ignoring the supplied or backfilled
value. -/
theorem objection_success_flags :
    (∀ (i : Nat) (o : RawObjection), o.success = none →
      (processObjection i o).success = decide (o.effectiveness > mkRat 7 10)) ∧
    (∀ (assetId : Nat) (data : NormalizedAnalysis) (so : StoredObjection),
      so ∈ (mkAnalysisRecord assetId data).objections →
      so.success = decide (so.effectiveness > mkRat 6 10)) := by
  constructor
  · intro i o h
    simp [processObjection, h]
  · intro assetId data so hso
    have hso2 : so ∈ data.objections.map (fun o =>
        ({ text := o.text, time := o.time, response := o.response,
           effectiveness := o.effectiveness, otype := o.otype,
           success := decide (o.effectiveness > mkRat 6 10) } : StoredObjection)) := hso
    rcases List.mem_map.mp hso2 with ⟨o, _, rfl⟩
    rfl

/-- Raw objection with no supplied success flag and effectiveness 0.7, for
the C2 theorems. -/
def borderlineObjection : RawObjection :=
  { id := some "obj-1".toList
    text := "That price is too high for us".toList
    time := "1:00".toList
    response := "Let me walk you through the value".toList
    responseTime := none
    effectiveness := mkRat 7 10
    otype := some .PRICE
    success := none
    technique := none
    transcriptRef := none }

/-- Raw analysis carrying `borderlineObjection`, for the C2 counterexample. -/
def borderlineRawAnalysis : RawAnalysis :=
  { duration := "10:00".toList
    sentimentOverall := mkRat 1 2
    sentimentTimeline := [("0:30".toList, mkRat 3 5)]
    talkRatio := none
    questionsAnalysis :=
      ⟨mkRat 5 1, mkRat 1 1, mkRat 3 1, ⟨mkRat 2 1, mkRat 1 1, mkRat 1 1, mkRat 1 1⟩, mkRat 1 2⟩
    topicCoherenceScore := mkRat 4 5
    objections := [borderlineObjection] }

/-- Environment in which every external operation succeeds and the service
returns `borderlineRawAnalysis`. -/
def borderlineEnv : PipelineEnv :=
  { extractedText := none
    classified := some borderlineRawAnalysis
    txOutcome := fun _ => true
    markFailOk := true
    bodyFailOk := true
    bodyId := none }

/-- **C2 (counterexample).** A successfully analyzed artifact whose objection
came with no success flag and effectiveness 0.7 is persisted with
`success = true` (because the write recomputes `0.7 > 0.6`), although
`effectiveness > 0.7` is false — so the stored flag does not equal
`effectiveness > 0.7` as the claim states. -/
theorem objection_success_counterexample :
    (runUpload ⟨[], [], 0⟩ "call transcript".toList .TEXT borderlineEnv).2 = .created ∧
    ((runUpload ⟨[], [], 0⟩ "call transcript".toList .TEXT borderlineEnv).1.analyses.map
      (fun a => a.objections.map (fun o => o.success))) = [[true]] ∧
    decide ((mkRat 7 10 : ℚ) > mkRat 7 10) = false := by
  refine ⟨by decide, by decide, by decide⟩

/-- Witness for `objection_success_flags` at a concrete input: the normalizer
backfills `borderlineObjection`'s missing flag as `0.7 > 0.7 = false`, and
the one stored objection of `borderlineRawAnalysis`'s persisted record
carries `success = (0.7 > 0.6)`. -/
theorem objection_success_flags_witness :
    borderlineObjection.success = none ∧
    (processObjection 0 borderlineObjection).success =
      decide (borderlineObjection.effectiveness > mkRat 7 10) ∧
    ((mkAnalysisRecord 0 (normalizeAnalysis borderlineRawAnalysis)).objections.getD 0
        ⟨[], [], [], mkRat 0 1, .OTHERS, false⟩) ∈
      (mkAnalysisRecord 0 (normalizeAnalysis borderlineRawAnalysis)).objections ∧
    ((mkAnalysisRecord 0 (normalizeAnalysis borderlineRawAnalysis)).objections.getD 0
        ⟨[], [], [], mkRat 0 1, .OTHERS, false⟩).success =
      decide (((mkAnalysisRecord 0 (normalizeAnalysis borderlineRawAnalysis)).objections.getD 0
        ⟨[], [], [], mkRat 0 1, .OTHERS, false⟩).effectiveness > mkRat 6 10) :=
  ⟨rfl, objection_success_flags.1 0 borderlineObjection rfl, by decide,
    objection_success_flags.2 0 (normalizeAnalysis borderlineRawAnalysis) _ (by decide)⟩

/-- **C6.** An objection arriving with no category whose text contains the
explicit price phrase "too expensive" is normalized to category `PRICE` with
PRICE's fixed presentation tag, and the transactional write persists the
normalized categories unchanged. -/
theorem priceObjection_category_and_tag :
    (∀ (i : Nat) (o : RawObjection), o.otype = none →
      "too expensive".toList <:+: jsToLower o.text →
      (processObjection i o).otype = .PRICE ∧
      (processObjection i o).color = "bg-red-100 text-red-600") ∧
    (∀ (assetId : Nat) (data : NormalizedAnalysis),
      ((mkAnalysisRecord assetId data).objections.map (fun so => so.otype)) =
        data.objections.map (fun o => o.otype)) := by
  constructor
  · intro i o hty hinf
    have hexp : "expensive".toList <:+: jsToLower o.text :=
      List.IsInfix.trans (by decide) hinf
    have hinc : jsIncludes (jsToLower o.text) "expensive".toList = true := by
      simp only [jsIncludes]
      exact decide_eq_true hexp
    constructor
    · simp only [processObjection, hty, determineObjectionType]
      rw [hinc]
      simp
    · simp only [processObjection, hty, determineObjectionType]
      rw [hinc]
      simp [getObjectionColorClass]
  · intro assetId data
    simp [mkAnalysisRecord, List.map_map]

/-- Concrete category-less objection whose text contains "too expensive", for
the C6 witness. -/
def tooExpensiveObjection : RawObjection :=
  { id := none
    text := "Honestly this is too expensive for our budget".toList
    time := "2:10".toList
    response := "Consider the total cost of ownership".toList
    responseTime := none
    effectiveness := mkRat 4 5
    otype := none
    success := none
    technique := none
    transcriptRef := none }

/-- Witness for `priceObjection_category_and_tag`: `tooExpensiveObjection`
normalizes to `PRICE` with the red tag, and the persisted categories of a
one-objection analysis equal the normalized ones. -/
theorem priceObjection_category_and_tag_witness :
    tooExpensiveObjection.otype = none ∧
    ("too expensive".toList <:+: jsToLower tooExpensiveObjection.text) ∧
    (processObjection 0 tooExpensiveObjection).otype = .PRICE ∧
    (processObjection 0 tooExpensiveObjection).color = "bg-red-100 text-red-600" ∧
    ((mkAnalysisRecord 0 (normalizeAnalysis borderlineRawAnalysis)).objections.map
      (fun so => so.otype)) =
      (normalizeAnalysis borderlineRawAnalysis).objections.map (fun o => o.otype) :=
  ⟨rfl, by decide,
    (priceObjection_category_and_tag.1 0 tooExpensiveObjection rfl (by decide)).1,
    (priceObjection_category_and_tag.1 0 tooExpensiveObjection rfl (by decide)).2,
    priceObjection_category_and_tag.2 0 (normalizeAnalysis borderlineRawAnalysis)⟩

/-! ## Status bookkeeping lemmas -/

/-- `setStatus` only rewrites statuses, so a search by id commutes with it. -/
theorem find?_setStatus (l : List (Nat × AssetStatus)) (j n : Nat) (s : AssetStatus) :
    (setStatus l j s).find? (fun p => p.1 == n) =
      (l.find? (fun p => p.1 == n)).map (fun p => if p.1 = j then (p.1, s) else p) := by
  have hf : ((fun p : Nat × AssetStatus => p.1 == n) ∘
      (fun p : Nat × AssetStatus => if p.1 = j then (p.1, s) else p)) =
      (fun p : Nat × AssetStatus => p.1 == n) := by
    funext p
    by_cases h : p.1 = j <;> simp [h]
  rw [setStatus, List.find?_map, hf]

/-- Updating the status of an asset other than `n` leaves the search for `n`
unchanged. -/
theorem find?_setStatus_ne (l : List (Nat × AssetStatus)) (j n : Nat) (s : AssetStatus)
    (h : j ≠ n) :
    (setStatus l j s).find? (fun p => p.1 == n) = l.find? (fun p => p.1 == n) := by
  rw [find?_setStatus]
  cases hfx : l.find? (fun p => p.1 == n) with
  | none => rfl
  | some x =>
    have hxn : x.1 = n := by simpa using List.find?_some hfx
    have hxj : ¬ (x.1 = j) := by
      rw [hxn]
      exact fun he => h he.symm
    simp [hxj]

/-- In a store whose assets all have ids other than `nextId`, the freshly
created asset is found with status `PENDING`. -/
theorem find?_createAsset (st : Store) (hA : ∀ p ∈ st.assets, p.1 ≠ st.nextId) :
    (createAsset st).assets.find? (fun p => p.1 == st.nextId) =
      some (st.nextId, .PENDING) := by
  rw [createAsset]
  rw [List.find?_append]
  have h1 : st.assets.find? (fun p => p.1 == st.nextId) = none := by
    rw [List.find?_eq_none]
    intro x hx
    simpa using hA x hx
  rw [h1]
  simp

/-- The error path always answers with the 500 outcome. -/
theorem failPath_snd (st1 : Store) (n : Nat) (env : PipelineEnv) :
    (failPath st1 n env).2 = .failed := rfl

/-- The error path never touches the analyses table. -/
theorem failPath_analyses (st1 : Store) (n : Nat) (env : PipelineEnv) :
    ((failPath st1 n env).1).analyses = st1.analyses := by
  rw [failPath]
  cases env.markFailOk <;> cases env.bodyId <;> cases env.bodyFailOk <;> rfl

/-- The assets after the error path: the created asset is marked `FAIL` when
that update succeeds, and the body-named asset is then marked `FAIL` when
that update succeeds. -/
theorem failPath_assets (st1 : Store) (n : Nat) (env : PipelineEnv) :
    ((failPath st1 n env).1).assets =
      (match env.bodyId with
        | some j =>
          if env.bodyFailOk then
            setStatus (if env.markFailOk then setStatus st1.assets n .FAIL else st1.assets) j .FAIL
          else (if env.markFailOk then setStatus st1.assets n .FAIL else st1.assets)
        | none => (if env.markFailOk then setStatus st1.assets n .FAIL else st1.assets)) := by
  rw [failPath]
  cases env.markFailOk <;> cases env.bodyId <;> cases env.bodyFailOk <;> rfl

/-- The upload run either commits the transaction (outcome `created`) or ends
on the error path. -/
theorem runUpload_cases (st : Store) (content : List Char) (ctype : CallAssetType)
    (env : PipelineEnv) :
    (∃ raw, env.classified = some raw ∧ (retryWithBackoff env.txOutcome).ok = true ∧
      runUpload st content ctype env =
        (applyTransaction (createAsset st) st.nextId (normalizeAnalysis raw), .created)) ∨
    runUpload st content ctype env = failPath (createAsset st) st.nextId env := by
  cases ctype with
  | TEXT =>
    cases hcl : env.classified with
    | none => exact Or.inr (by simp [runUpload, hcl])
    | some raw =>
      by_cases hok : (retryWithBackoff env.txOutcome).ok = true
      · exact Or.inl ⟨raw, rfl, hok, by simp [runUpload, hcl, hok]⟩
      · exact Or.inr (by simp [runUpload, hcl, hok])
  | FILE =>
    cases hex : env.extractedText with
    | none => exact Or.inr (by simp [runUpload, hex])
    | some t =>
      cases hcl : env.classified with
      | none => exact Or.inr (by simp [runUpload, hex, hcl])
      | some raw =>
        by_cases hok : (retryWithBackoff env.txOutcome).ok = true
        · exact Or.inl ⟨raw, rfl, hok, by simp [runUpload, hex, hcl, hok]⟩
        · exact Or.inr (by simp [runUpload, hex, hcl, hok])

/-- On the error path with a succeeding FAIL-marking update, the created
asset ends in status FAIL (whatever the body-named update does). -/
theorem statusOf_failPath_mark (st : Store) (env : PipelineEnv)
    (hA : ∀ p ∈ st.assets, p.1 ≠ st.nextId) (hmark : env.markFailOk = true) :
    statusOf (failPath (createAsset st) st.nextId env).1 st.nextId = some .FAIL := by
  simp only [statusOf, failPath_assets, hmark, if_true]
  cases hb : env.bodyId with
  | none =>
    rw [find?_setStatus, find?_createAsset st hA]
    simp
  | some j =>
    cases hbf : env.bodyFailOk with
    | false =>
      simp only [Bool.false_eq_true, if_false]
      rw [find?_setStatus, find?_createAsset st hA]
      simp
    | true =>
      simp only [if_true]
      rw [find?_setStatus, find?_setStatus, find?_createAsset st hA]
      by_cases hj : st.nextId = j <;> simp [hj]

/-- **C1 (amended).** For every upload whose pipeline raises at any stage
(extraction, classification/normalization, or the transactional write after
exhausting retries), no Analysis row — and hence no Objection,
SentimentEntry or ParticipantTalkStat child — ever exists for the artifact
(the Analysis and its children are created only inside the all-or-nothing
transaction, which also flips the status to SUCCESS); and the artifact ends
in status FAIL provided the FAIL-marking update itself succeeds.  (When that
update also fails, the artifact is left PENDING — see the counterexample.) -/
theorem pipelineFailure_no_partial_writes (st : Store) (content : List Char)
    (ctype : CallAssetType) (env : PipelineEnv)
    (hA : ∀ p ∈ st.assets, p.1 ≠ st.nextId)
    (hN : ∀ a ∈ st.analyses, a.callAssetId ≠ st.nextId)
    (hfail : (runUpload st content ctype env).2 = .failed) :
    hasAnalysisFor (runUpload st content ctype env).1 st.nextId = false ∧
    (env.markFailOk = true →
      statusOf (runUpload st content ctype env).1 st.nextId = some .FAIL) := by
  rcases runUpload_cases st content ctype env with ⟨raw, _, _, heq⟩ | heq
  · rw [heq] at hfail
    exact absurd hfail (by simp)
  · rw [heq]
    constructor
    · simp only [hasAnalysisFor, failPath_analyses, createAsset]
      rw [List.any_eq_false]
      intro a ha
      simpa using hN a ha
    · intro hmark
      exact statusOf_failPath_mark st env hA hmark

/-- Environment of the C1 witness: the classification service fails and the
FAIL-marking update succeeds. -/
def classifyFailEnv : PipelineEnv :=
  { extractedText := none
    classified := none
    txOutcome := fun _ => true
    markFailOk := true
    bodyFailOk := true
    bodyId := none }

/-- Witness for `pipelineFailure_no_partial_writes`: on an empty store, a TEXT
upload whose classification fails leaves no analysis and marks asset 0
FAIL. -/
theorem pipelineFailure_no_partial_writes_witness :
    (∀ p ∈ (⟨[], [], 0⟩ : Store).assets, p.1 ≠ 0) ∧
    (∀ a ∈ (⟨[], [], 0⟩ : Store).analyses, a.callAssetId ≠ 0) ∧
    (runUpload ⟨[], [], 0⟩ "call".toList .TEXT classifyFailEnv).2 = .failed ∧
    hasAnalysisFor (runUpload ⟨[], [], 0⟩ "call".toList .TEXT classifyFailEnv).1 0 = false ∧
    statusOf (runUpload ⟨[], [], 0⟩ "call".toList .TEXT classifyFailEnv).1 0 = some .FAIL :=
  ⟨by decide, by decide, by decide,
    (pipelineFailure_no_partial_writes ⟨[], [], 0⟩ "call".toList .TEXT classifyFailEnv
      (by decide) (by decide) (by decide)).1,
    (pipelineFailure_no_partial_writes ⟨[], [], 0⟩ "call".toList .TEXT classifyFailEnv
      (by decide) (by decide) (by decide)).2 rfl⟩

/-- Environment of the C1 counterexample: the backing store is down, so the
transaction fails on all four attempts and the FAIL-marking update then
throws as well. -/
def pendingLeakEnv : PipelineEnv :=
  { extractedText := none
    classified := some borderlineRawAnalysis
    txOutcome := fun _ => false
    markFailOk := false
    bodyFailOk := true
    bodyId := none }

/-- **C1 (counterexample).** A pipeline that raises in the transactional
write after exhausting retries, and whose FAIL-marking update also fails,
leaves the artifact in status PENDING — not FAIL as the claim states. -/
theorem pipelineFailure_pending_counterexample :
    (runUpload ⟨[], [], 0⟩ "call".toList .TEXT pendingLeakEnv).2 = .failed ∧
    statusOf (runUpload ⟨[], [], 0⟩ "call".toList .TEXT pendingLeakEnv).1 0 =
      some .PENDING ∧
    (some AssetStatus.PENDING ≠ some AssetStatus.FAIL) := by
  refine ⟨by decide, by decide, by decide⟩

/-- **C4 (amended).** Every artifact is created with status PENDING.  The
created artifact's only transitions are PENDING → SUCCESS (inside the
committed transaction) and PENDING → FAIL (on pipeline failure, when the
FAIL-marking update succeeds); when that update fails and the request body
names no conflicting id, the artifact stays PENDING.  Assets other than the
created one and the one named by the client-supplied `req.body.id` are never
touched — but the outer error handler forces the body-named asset to FAIL
regardless of its current status (see the counterexample for the resulting
SUCCESS → FAIL transition). -/
theorem assetStatus_transitions (st : Store) (content : List Char)
    (ctype : CallAssetType) (env : PipelineEnv)
    (hA : ∀ p ∈ st.assets, p.1 ≠ st.nextId) :
    (statusOf (createAsset st) st.nextId = some .PENDING) ∧
    ((runUpload st content ctype env).2 = .created →
      statusOf (runUpload st content ctype env).1 st.nextId = some .SUCCESS) ∧
    ((runUpload st content ctype env).2 = .failed → env.markFailOk = true →
      statusOf (runUpload st content ctype env).1 st.nextId = some .FAIL) ∧
    ((runUpload st content ctype env).2 = .failed → env.markFailOk = false →
      env.bodyId ≠ some st.nextId →
      statusOf (runUpload st content ctype env).1 st.nextId = some .PENDING) ∧
    (∀ i, i ≠ st.nextId → env.bodyId ≠ some i →
      statusOf (runUpload st content ctype env).1 i = statusOf st i) := by
  have hpend : statusOf (createAsset st) st.nextId = some .PENDING := by
    simp only [statusOf, find?_createAsset st hA]
    rfl
  refine ⟨hpend, ?_, ?_, ?_, ?_⟩
  · intro hcr
    rcases runUpload_cases st content ctype env with ⟨raw, _, _, heq⟩ | heq
    · rw [heq]
      simp only [statusOf, applyTransaction]
      rw [find?_setStatus, find?_createAsset st hA]
      simp
    · rw [heq, failPath_snd] at hcr
      exact absurd hcr (by decide)
  · intro hfail hmark
    rcases runUpload_cases st content ctype env with ⟨raw, _, _, heq⟩ | heq
    · rw [heq] at hfail
      exact absurd hfail (by simp)
    · rw [heq]
      exact statusOf_failPath_mark st env hA hmark
  · intro hfail hmark hbody
    rcases runUpload_cases st content ctype env with ⟨raw, _, _, heq⟩ | heq
    · rw [heq] at hfail
      exact absurd hfail (by simp)
    · rw [heq]
      simp only [statusOf, failPath_assets, hmark]
      cases hb : env.bodyId with
      | none =>
        simp [find?_createAsset st hA]
      | some j =>
        have hj : j ≠ st.nextId := fun he => hbody (by rw [hb, he])
        cases hbf : env.bodyFailOk with
        | false =>
          simp [hbf, find?_createAsset st hA]
        | true =>
          simp [hbf, find?_setStatus_ne _ _ _ _ hj, find?_createAsset st hA]
  · intro i hi hbody
    have hni : st.nextId ≠ i := fun he => hi he.symm
    have hfind : (createAsset st).assets.find? (fun p => p.1 == i) =
        st.assets.find? (fun p => p.1 == i) := by
      rw [createAsset]
      rw [List.find?_append]
      have h2 : ([(st.nextId, AssetStatus.PENDING)].find? (fun p => p.1 == i)) = none := by
        simp [hni]
      rw [h2]
      cases st.assets.find? (fun p => p.1 == i) <;> rfl
    rcases runUpload_cases st content ctype env with ⟨raw, _, _, heq⟩ | heq
    · rw [heq]
      simp only [statusOf, applyTransaction]
      rw [find?_setStatus_ne _ _ _ _ hni, hfind]
    · rw [heq]
      simp only [statusOf, failPath_assets]
      cases hb : env.bodyId with
      | none =>
        cases hm : env.markFailOk with
        | false => simp [hm, hfind]
        | true => simp [hm, find?_setStatus_ne _ _ _ _ hni, hfind]
      | some j =>
        have hji : j ≠ i := fun he => hbody (by rw [hb, he])
        cases hm : env.markFailOk with
        | false =>
          cases hbf : env.bodyFailOk with
          | false => simp [hm, hbf, hfind]
          | true => simp [hm, hbf, find?_setStatus_ne _ _ _ _ hji, hfind]
        | true =>
          cases hbf : env.bodyFailOk with
          | false => simp [hm, hbf, find?_setStatus_ne _ _ _ _ hni, hfind]
          | true =>
            simp [hm, hbf, find?_setStatus_ne _ _ _ _ hji,
              find?_setStatus_ne _ _ _ _ hni, hfind]

/-- Witness for `assetStatus_transitions`: on an empty store, a successful
TEXT upload creates asset 0 as PENDING and commits it to SUCCESS. -/
theorem assetStatus_transitions_witness :
    (∀ p ∈ (⟨[], [], 0⟩ : Store).assets, p.1 ≠ 0) ∧
    statusOf (createAsset ⟨[], [], 0⟩) 0 = some .PENDING ∧
    (runUpload ⟨[], [], 0⟩ "call".toList .TEXT borderlineEnv).2 = .created ∧
    statusOf (runUpload ⟨[], [], 0⟩ "call".toList .TEXT borderlineEnv).1 0 = some .SUCCESS :=
  ⟨by decide,
    (assetStatus_transitions ⟨[], [], 0⟩ "call".toList .TEXT borderlineEnv (by decide)).1,
    by decide,
    (assetStatus_transitions ⟨[], [], 0⟩ "call".toList .TEXT borderlineEnv
      (by decide)).2.1 (by decide)⟩

/-- Environment of the C4 counterexample: the classification fails while the
request body carries the id of an existing, already-SUCCESS asset. -/
def phantomFailEnv : PipelineEnv :=
  { extractedText := none
    classified := none
    txOutcome := fun _ => true
    markFailOk := true
    bodyFailOk := true
    bodyId := some 5 }

/-- **C4 (counterexample).** The outer error handler performs a transition
other than PENDING → SUCCESS/FAIL: an upload that fails while its request
body names asset 5 — an asset already in the terminal status SUCCESS —
flips that asset from SUCCESS to FAIL. -/
theorem statusTransition_success_to_fail_counterexample :
    statusOf ⟨[(5, .SUCCESS)], [], 6⟩ 5 = some .SUCCESS ∧
    (runUpload ⟨[(5, .SUCCESS)], [], 6⟩ "call".toList .TEXT phantomFailEnv).2 = .failed ∧
    statusOf (runUpload ⟨[(5, .SUCCESS)], [], 6⟩ "call".toList .TEXT phantomFailEnv).1 5 =
      some .FAIL := by
  refine ⟨by decide, by decide, by decide⟩

/-- Raw analysis whose service-supplied participant stats sum to 60 percent,
for the C9 counterexample. -/
def lopsidedRawAnalysis : RawAnalysis :=
  { duration := "10:00".toList
    sentimentOverall := mkRat 1 2
    sentimentTimeline := []
    talkRatio := some ⟨mkRat 30 1,
      [⟨none, "Ann".toList, "Sales Rep".toList, mkRat 120 1, mkRat 30 1⟩,
        ⟨none, "Bob".toList, "Prospect".toList, mkRat 120 1, mkRat 30 1⟩], none⟩
    questionsAnalysis :=
      ⟨mkRat 5 1, mkRat 1 1, mkRat 3 1, ⟨mkRat 2 1, mkRat 1 1, mkRat 1 1, mkRat 1 1⟩, mkRat 1 2⟩
    topicCoherenceScore := mkRat 4 5
    objections := [] }

/-- Environment in which every operation succeeds and the service returns
`lopsidedRawAnalysis`. -/
def lopsidedEnv : PipelineEnv :=
  { extractedText := none
    classified := some lopsidedRawAnalysis
    txOutcome := fun _ => true
    markFailOk := true
    bodyFailOk := true
    bodyId := none }

/-- **C9 (counterexample).** The pipeline persists the service-supplied
percentages unvalidated: a schema-conforming response whose two talk stats
carry 30 percent each is stored as-is, so the percentages of the persisted
Analysis sum to 60, not approximately 100. -/
theorem talkStat_sum_counterexample :
    (runUpload ⟨[], [], 0⟩ "call".toList .TEXT lopsidedEnv).2 = .created ∧
    ((runUpload ⟨[], [], 0⟩ "call".toList .TEXT lopsidedEnv).1.analyses.map
      (fun a => a.participantTalkStats.map (fun s => s.percentage))) =
      [[mkRat 30 1, mkRat 30 1]] ∧
    mkRat 30 1 + mkRat 30 1 = mkRat 60 1 ∧
    mkRat 60 1 ≠ mkRat 100 1 := by
  refine ⟨by decide, by decide, by decide, by decide⟩
